import Mathlib

/-!
Verification of the GPIO event monitor (`event_monitor.c`).

The C module keeps three pieces of global state:
  `volatile uint32_t event_count`, `static uint32_t monitored_mask`,
  `static gpio_mask_t previous_state`,
plus a registered GPIO callback and a periodic RTOS task.  We embed the
module shallowly: 32-bit words are `Nat` values reduced modulo `2 ^ 32`
exactly where the C unsigned arithmetic wraps, the global state is an
explicit `MonitorState` record threaded through the operations, and the
periodic task body is a function from state to (observable events, state).
-/

/-- The modulus of C `uint32_t` arithmetic, `2 ^ 32`. -/
def U32 : Nat := 2 ^ 32

/-- The global state of `event_monitor.c`: the shared event counter
(`volatile uint32_t event_count`), the mask of monitored pins
(`static uint32_t monitored_mask`), the last observed GPIO sample
(`static gpio_mask_t previous_state`), and two booleans recording the
externally visible effects of initialization: whether
`gpio_register_callback(gpio_change_callback)` has run and whether
`rtos_task_create(&task, monitor_task, NULL)` has run. -/
structure MonitorState where
  event_count : Nat
  monitored_mask : Nat
  previous_state : Nat
  callback_registered : Bool
  task_started : Bool
deriving Repr, DecidableEq

/-- Bitwise complement of a 32-bit word: C `~x` on a `uint32_t` operand. -/
def compl32 (x : Nat) : Nat := x ^^^ (U32 - 1)

/-- The computation `rising_edges = (~previous_state & new_state) & monitored_mask;`
(line 14 of `event_monitor.c`). -/
def rising_edges (s : MonitorState) (new_state : Nat) : Nat :=
  (compl32 s.previous_state &&& new_state) &&& s.monitored_mask

/-- The bit-scanning loop of `gpio_change_callback`:
`for (i = 0; i < 32; ++i) if (rising_edges & (1u << i)) ++event_count;`.
Each `++event_count` is a `uint32_t` increment, i.e. wraps modulo `2 ^ 32`. -/
def count_rising_loop (rising : Nat) (count : Nat) : Nat :=
  (List.range 32).foldl
    (fun c i => if rising &&& (1 <<< i) != 0 then (c + 1) % U32 else c) count

/-- The handler `gpio_change_callback(gpio_mask_t new_state)`: computes the rising
edges against `previous_state`, unconditionally stores `new_state` into
`previous_state`, and, when some rising edge exists, runs the counting
loop on `event_count` (under the mutex, which the sequential embedding
renders as an indivisible update). -/
def gpio_change_callback (new_state : Nat) (s : MonitorState) : MonitorState :=
  let r := rising_edges s new_state
  let s1 : MonitorState := { s with previous_state := new_state }
  if r != 0 then { s1 with event_count := count_rising_loop r s1.event_count }
  else s1

/-- Observable actions of one iteration of `monitor_task`'s loop:
the `rtos_task_delay_ms` call and the `report_event_count` call. -/
inductive TaskEvent where
  | delay (ms : Nat)
  | report (count : Nat)
deriving Repr, DecidableEq

/-- One iteration of the `while (1)` body of `monitor_task`:
`rtos_task_delay_ms(1000);` then, under the mutex,
`count = event_count; event_count = 0;` then `report_event_count(count);`.
Returns the emitted observable events in order, and the state after. -/
def monitor_task_iter (s : MonitorState) : List TaskEvent × MonitorState :=
  let count := s.event_count
  let s1 : MonitorState := { s with event_count := 0 }
  ([TaskEvent.delay 1000, TaskEvent.report count], s1)

/-- The initializer `event_monitor_init(uint32_t mask)`: stores the mask, captures the
current GPIO input (`gpio_read_input()`, passed here as the explicit
argument `gpio_input`) as the initial `previous_state`, registers the
callback and creates the monitor task.  It does not touch `event_count`. -/
def event_monitor_init (mask : Nat) (gpio_input : Nat) (s : MonitorState) :
    MonitorState :=
  { s with
    monitored_mask := mask
    previous_state := gpio_input
    callback_registered := true
    task_started := true }

/-- 32-bit population count, the "intrinsic popcount" alternative the
spec allows: the number of set bits among bit positions 0..31. -/
def popcount32 (x : Nat) : Nat := (List.range 32).countP (fun i => x.testBit i)

/-- An atomic step of the concurrent system: either the GPIO interrupt
delivers a new sample to `gpio_change_callback` (one indivisible batch of
increments, per the mutex), or the monitor task drains the counter
(the mutex-protected `count = event_count; event_count = 0;` followed by
reporting `count`). -/
inductive Step where
  | notify (new_state : Nat)
  | drain
deriving Repr, DecidableEq

/-- Run an interleaving of notification and drain steps from a state.
Returns the final state, the list of values passed to
`report_event_count` in order, and the total number of events produced
(the sum of the batch sizes `c_i = popcount (rising_edges)` of the
notifications). -/
def run_steps : List Step → MonitorState → MonitorState × List Nat × Nat
  | [], s => (s, [], 0)
  | Step.notify n :: rest, s =>
    let out := run_steps rest (gpio_change_callback n s)
    (out.1, out.2.1, popcount32 (rising_edges s n) + out.2.2)
  | Step.drain :: rest, s =>
    let out := run_steps rest { s with event_count := 0 }
    (out.1, s.event_count :: out.2.1, out.2.2)

/-! ### Helper lemmas -/

theorem U32_pos : 0 < U32 := by decide

/-- Counting with per-step wraparound: folding "increment mod `U32` when
the predicate holds" over a list adds the number of satisfying elements,
modulo `U32`. -/
theorem foldl_count_mod (cond : Nat → Bool) (l : List Nat) (c : Nat)
    (hc : c < U32) :
    l.foldl (fun a i => if cond i then (a + 1) % U32 else a) c
      = (c + l.countP cond) % U32 := by
  induction l generalizing c with
  | nil => simp [Nat.mod_eq_of_lt hc]
  | cons x xs ih =>
    simp only [List.foldl_cons, List.countP_cons]
    by_cases h : cond x
    · rw [if_pos h, ih _ (Nat.mod_lt _ U32_pos)]
      simp [h, Nat.mod_add_mod]
      congr 1
      omega
    · rw [if_neg h, ih _ hc]
      simp [h]

/-- The loop guard `rising & (1u << i)` is nonzero exactly when bit `i`
of `rising` is set. -/
theorem loop_guard_eq_testBit (rising i : Nat) :
    (rising &&& (1 <<< i) != 0) = rising.testBit i := by
  rw [Nat.one_shiftLeft, Nat.and_two_pow]
  cases h : rising.testBit i <;> simp [h, (Nat.two_pow_pos i).ne']

/-- The bit-scanning loop adds the 32-bit population count of `rising`
to the counter, modulo `2 ^ 32`. -/
theorem count_rising_loop_eq (rising c : Nat) (hc : c < U32) :
    count_rising_loop rising c = (c + popcount32 rising) % U32 := by
  unfold count_rising_loop popcount32
  rw [foldl_count_mod _ _ _ hc]
  congr 1
  refine congrArg (c + ·) (List.countP_congr ?_)
  intro i _
  rw [loop_guard_eq_testBit]

theorem popcount32_zero : popcount32 0 = 0 := by decide

/-- Field-level description of `gpio_change_callback`: the new
`event_count` (the counting loop ran iff some rising edge exists, but
with no rising edge the loop would add nothing, so the modular formula
holds in both branches). -/
theorem gpio_change_callback_count (n : Nat) (s : MonitorState)
    (hc : s.event_count < U32) :
    (gpio_change_callback n s).event_count
      = (s.event_count + popcount32 (rising_edges s n)) % U32 := by
  unfold gpio_change_callback
  by_cases h : rising_edges s n = 0
  · simp [h, popcount32_zero, Nat.mod_eq_of_lt hc]
  · simp [h, count_rising_loop_eq _ _ hc]

theorem gpio_change_callback_mask (n : Nat) (s : MonitorState) :
    (gpio_change_callback n s).monitored_mask = s.monitored_mask := by
  unfold gpio_change_callback
  by_cases h : rising_edges s n = 0 <;> simp [h]

theorem gpio_change_callback_prev (n : Nat) (s : MonitorState) :
    (gpio_change_callback n s).previous_state = n := by
  unfold gpio_change_callback
  by_cases h : rising_edges s n = 0 <;> simp [h]

theorem gpio_change_callback_count_lt (n : Nat) (s : MonitorState)
    (hc : s.event_count < U32) :
    (gpio_change_callback n s).event_count < U32 := by
  rw [gpio_change_callback_count n s hc]
  exact Nat.mod_lt _ U32_pos

theorem gpio_change_callback_count_le (n : Nat) (s : MonitorState)
    (hc : s.event_count < U32) :
    (gpio_change_callback n s).event_count
      ≤ s.event_count + popcount32 (rising_edges s n) := by
  rw [gpio_change_callback_count n s hc]
  exact Nat.mod_le _ _

/-! ### Claims -/

/-- C1: one invocation of `gpio_change_callback` increases `event_count`
by exactly the population count of `(~prev & new) & mask` — in the
`uint32_t` arithmetic of `event_count`, i.e. modulo `2 ^ 32`, and as an
exact `Nat` increment whenever no wraparound occurs.  Bits that stay 1,
fall from 1 to 0, or lie outside the mask are absent from
`(~prev & new) & mask` and hence contribute no events. -/
theorem c1_callback_adds_popcount (n : Nat) (s : MonitorState)
    (hc : s.event_count < U32) :
    (gpio_change_callback n s).event_count
        = (s.event_count
            + popcount32 ((compl32 s.previous_state &&& n) &&& s.monitored_mask))
          % U32
    ∧ (s.event_count
          + popcount32 ((compl32 s.previous_state &&& n) &&& s.monitored_mask)
            < U32 →
        (gpio_change_callback n s).event_count
          = s.event_count
            + popcount32 ((compl32 s.previous_state &&& n) &&& s.monitored_mask)) := by
  refine ⟨gpio_change_callback_count n s hc, fun hlt => ?_⟩
  rw [gpio_change_callback_count n s hc]
  exact Nat.mod_eq_of_lt hlt

/-- Witness for C1 at a concrete input: previous sample 1, new sample 7,
mask 15; the rising edges are bits 1 and 2, so the counter goes from
5 to 7. -/
theorem c1_callback_adds_popcount_witness :
    (5 : Nat) < U32
    ∧ ((gpio_change_callback 7 ⟨5, 15, 1, true, true⟩).event_count
          = (5 + popcount32 ((compl32 1 &&& 7) &&& 15)) % U32
        ∧ (5 + popcount32 ((compl32 1 &&& 7) &&& 15) < U32 →
            (gpio_change_callback 7 ⟨5, 15, 1, true, true⟩).event_count
              = 5 + popcount32 ((compl32 1 &&& 7) &&& 15))) :=
  ⟨by decide, c1_callback_adds_popcount 7 ⟨5, 15, 1, true, true⟩ (by decide)⟩

/-- C3: `gpio_change_callback` stores the new sample into
`previous_state` unconditionally — for every new sample and every prior
state, including when the rising-edge set is zero. -/
theorem c3_previous_state_updated (n : Nat) (s : MonitorState) :
    (gpio_change_callback n s).previous_state = n :=
  gpio_change_callback_prev n s

/-- C8: the 32-position bit-scanning loop is observably equivalent to
adding the intrinsic population count in one step: for every 32-bit
`rising` value and counter, the loop leaves the counter at
`count + popcount rising` (in the counter's `uint32_t` arithmetic,
and exactly whenever no wraparound occurs). -/
theorem c8_loop_equals_popcount (rising c : Nat) (hr : rising < U32)
    (hc : c < U32) :
    count_rising_loop rising c = (c + popcount32 rising) % U32
    ∧ (c + popcount32 rising < U32 →
        count_rising_loop rising c = c + popcount32 rising) := by
  refine ⟨count_rising_loop_eq rising c hc, fun hlt => ?_⟩
  rw [count_rising_loop_eq rising c hc]
  exact Nat.mod_eq_of_lt hlt

/-- Witness for C8 at a concrete input: rising word 0x2C (three set
bits), counter 10, loop result 13. -/
theorem c8_loop_equals_popcount_witness :
    ((0x2C : Nat) < U32 ∧ (10 : Nat) < U32)
    ∧ (count_rising_loop 0x2C 10 = (10 + popcount32 0x2C) % U32
        ∧ (10 + popcount32 0x2C < U32 →
            count_rising_loop 0x2C 10 = 10 + popcount32 0x2C)) :=
  ⟨by decide, c8_loop_equals_popcount 0x2C 10 (by decide) (by decide)⟩

/-- C9: `event_count` is a `uint32_t` and wraps modulo `2 ^ 32`: an
invocation of the callback that produces exactly one event while the
counter holds `2 ^ 32 - 1` leaves the counter at 0 — the operation is a
total function, with no error or other change of behavior. -/
theorem c9_counter_wraps (n : Nat) (s : MonitorState)
    (hmax : s.event_count = U32 - 1)
    (hone : popcount32 (rising_edges s n) = 1) :
    (gpio_change_callback n s).event_count = 0 := by
  rw [gpio_change_callback_count n s (by rw [hmax]; exact Nat.sub_lt U32_pos Nat.one_pos),
    hmax, hone]
  have : U32 - 1 + 1 = U32 := Nat.succ_pred_eq_of_pos U32_pos
  rw [this, Nat.mod_self]

/-- Witness for C9: counter at `2 ^ 32 - 1`, previous sample 0, mask 1,
new sample 1 — one rising edge, and the counter wraps to 0. -/
theorem c9_counter_wraps_witness :
    ((⟨U32 - 1, 1, 0, true, true⟩ : MonitorState).event_count = U32 - 1
      ∧ popcount32 (rising_edges ⟨U32 - 1, 1, 0, true, true⟩ 1) = 1)
    ∧ (gpio_change_callback 1 ⟨U32 - 1, 1, 0, true, true⟩).event_count = 0 :=
  ⟨⟨by decide, by decide⟩,
    c9_counter_wraps 1 ⟨U32 - 1, 1, 0, true, true⟩ (by decide) (by decide)⟩

/-- A 32-bit word and its 32-bit complement never share a set bit. -/
theorem compl32_testBit_conflict (x : Nat) (hx : x < U32) (i : Nat) :
    ((compl32 x).testBit i && x.testBit i) = false := by
  rcases Nat.lt_or_ge i 32 with h | h
  · simp only [compl32, Nat.testBit_xor]
    have ht : (U32 - 1).testBit i = true := by
      have he : U32 - 1 = 2 ^ 32 - 1 := rfl
      rw [he, Nat.testBit_two_pow_sub_one]
      simp [h]
    rw [ht]
    cases hxb : x.testBit i <;> simp
  · have hz : x.testBit i = false :=
      Nat.testBit_eq_false_of_lt
        (lt_of_lt_of_le hx (Nat.pow_le_pow_right (by norm_num) h))
    simp [hz]

/-- C4: `event_monitor_init mask` stores `mask` into `monitored_mask`,
captures the current GPIO input as the initial `previous_state`,
registers `gpio_change_callback` as the input-change handler, and starts
the monitor task.  Consequently, bits already high at initialization can
never appear among the rising edges of the first notification, whatever
sample it delivers. -/
theorem c4_init_effects (mask gpio_input n : Nat) (s : MonitorState)
    (h : gpio_input < U32) :
    (event_monitor_init mask gpio_input s).monitored_mask = mask
    ∧ (event_monitor_init mask gpio_input s).previous_state = gpio_input
    ∧ (event_monitor_init mask gpio_input s).callback_registered = true
    ∧ (event_monitor_init mask gpio_input s).task_started = true
    ∧ rising_edges (event_monitor_init mask gpio_input s) n &&& gpio_input = 0 := by
  refine ⟨rfl, rfl, rfl, rfl, ?_⟩
  apply Nat.eq_of_testBit_eq
  intro i
  simp only [rising_edges, event_monitor_init, Nat.testBit_and, Nat.zero_testBit]
  have hconf := compl32_testBit_conflict gpio_input h i
  cases h1 : (compl32 gpio_input).testBit i <;>
    cases h2 : gpio_input.testBit i <;> simp_all

/-- Witness for C4: mask 9, current input 5, first notification 7. -/
theorem c4_init_effects_witness :
    (5 : Nat) < U32
    ∧ ((event_monitor_init 9 5 ⟨0, 0, 0, false, false⟩).monitored_mask = 9
        ∧ (event_monitor_init 9 5 ⟨0, 0, 0, false, false⟩).previous_state = 5
        ∧ (event_monitor_init 9 5 ⟨0, 0, 0, false, false⟩).callback_registered = true
        ∧ (event_monitor_init 9 5 ⟨0, 0, 0, false, false⟩).task_started = true
        ∧ rising_edges (event_monitor_init 9 5 ⟨0, 0, 0, false, false⟩) 7 &&& 5 = 0) :=
  ⟨by decide, c4_init_effects 9 5 7 ⟨0, 0, 0, false, false⟩ (by decide)⟩

/-- C5: one iteration of `monitor_task` emits exactly a 1000 ms delay
followed by a single report of the counter value read at the drain, and
leaves the state unchanged except that `event_count` is reset to 0. -/
theorem c5_task_period (s : MonitorState) :
    (monitor_task_iter s).1
        = [TaskEvent.delay 1000, TaskEvent.report s.event_count]
    ∧ (monitor_task_iter s).2 = { s with event_count := 0 } :=
  ⟨rfl, rfl⟩

/-- C6: drain is idempotent per period: a drain leaves `event_count` at
zero, so an immediate second drain with no intervening notification
reports zero. -/
theorem c6_drain_idempotent (s : MonitorState) :
    (monitor_task_iter (monitor_task_iter s).2).1
        = [TaskEvent.delay 1000, TaskEvent.report 0]
    ∧ (monitor_task_iter (monitor_task_iter s).2).2.event_count = 0 :=
  ⟨rfl, rfl⟩

/-- With a zero monitor mask `gpio_change_callback` only records the new
sample: the rising-edge set is forced to zero. -/
theorem gpio_change_callback_zero_mask (n : Nat) (s : MonitorState)
    (h : s.monitored_mask = 0) :
    gpio_change_callback n s = { s with previous_state := n } := by
  unfold gpio_change_callback rising_edges
  simp [h]

/-- C7: if the monitor mask is zero then any sequence of sample
notifications, from any starting state, leaves `event_count` unchanged:
no events are ever produced. -/
theorem c7_zero_mask_no_events (samples : List Nat) (s : MonitorState)
    (h : s.monitored_mask = 0) :
    (samples.foldl (fun st n => gpio_change_callback n st) s).event_count
      = s.event_count := by
  induction samples generalizing s with
  | nil => rfl
  | cons x xs ih =>
    rw [List.foldl_cons, gpio_change_callback_zero_mask x s h]
    exact ih { s with previous_state := x } h

/-- Witness for C7: mask 0, three notifications with every bit pattern
rising at some point, counter stays at 3. -/
theorem c7_zero_mask_no_events_witness :
    (⟨3, 0, 0, true, true⟩ : MonitorState).monitored_mask = 0
    ∧ ([7, 255, 0].foldl (fun st n => gpio_change_callback n st)
          ⟨3, 0, 0, true, true⟩).event_count = 3 :=
  ⟨by decide, c7_zero_mask_no_events [7, 255, 0] ⟨3, 0, 0, true, true⟩ (by decide)⟩

/-- C10: `event_monitor_init` (also on a repeated call) leaves
`event_count` unchanged: it overwrites the mask and previous sample but
never resets the counter, so the next drain still reports the events
accumulated before the (re-)initialization. -/
theorem c10_init_preserves_counter (mask gpio_input : Nat) (s : MonitorState) :
    (event_monitor_init mask gpio_input s).event_count = s.event_count
    ∧ (monitor_task_iter (event_monitor_init mask gpio_input s)).1
        = [TaskEvent.delay 1000, TaskEvent.report s.event_count] :=
  ⟨rfl, rfl⟩

/-- No-loss invariant, modulo `2 ^ 32`: along any interleaving of
notifications and drains, reported values plus the residual counter
equal the initial counter plus all produced events, in `uint32_t`
arithmetic. -/
theorem run_steps_mod (steps : List Step) (s : MonitorState)
    (hc : s.event_count < U32) :
    ((run_steps steps s).2.1.sum + (run_steps steps s).1.event_count) % U32
      = (s.event_count + (run_steps steps s).2.2) % U32 := by
  induction steps generalizing s with
  | nil => simp [run_steps]
  | cons st rest ih =>
    cases st with
    | notify n =>
      simp only [run_steps]
      rw [ih (gpio_change_callback n s) (gpio_change_callback_count_lt n s hc),
        gpio_change_callback_count n s hc, Nat.mod_add_mod, Nat.add_assoc]
    | drain =>
      simp only [run_steps, List.sum_cons]
      have ih' := ih { s with event_count := 0 } (by simpa using U32_pos)
      simp only [Nat.zero_add] at ih'
      rw [Nat.add_assoc, Nat.add_mod s.event_count, ih', ← Nat.add_mod]

/-- Reported values plus the residual counter never exceed the initial
counter plus all produced events (wraparound can only lose counts,
never create them). -/
theorem run_steps_le (steps : List Step) (s : MonitorState)
    (hc : s.event_count < U32) :
    (run_steps steps s).2.1.sum + (run_steps steps s).1.event_count
      ≤ s.event_count + (run_steps steps s).2.2 := by
  induction steps generalizing s with
  | nil => simp [run_steps]
  | cons st rest ih =>
    cases st with
    | notify n =>
      simp only [run_steps]
      have h1 := ih (gpio_change_callback n s) (gpio_change_callback_count_lt n s hc)
      have h2 := gpio_change_callback_count_le n s hc
      omega
    | drain =>
      simp only [run_steps, List.sum_cons]
      have h1 := ih { s with event_count := 0 } (by simpa using U32_pos)
      simp only [Nat.zero_add] at h1
      omega

/-- C2 (amended): for any interleaving of notification and drain steps,
the sum of all reported values plus the residual counter equals the
initial counter plus the sum of all produced batch counts `c_i` modulo
`2 ^ 32` — and exactly, whenever that total stays below `2 ^ 32`
(the `uint32_t` counter wraps, so the unqualified equation of the
original claim fails once the events between drains reach `2 ^ 32`). -/
theorem c2_no_loss_amended (steps : List Step) (s : MonitorState)
    (hc : s.event_count < U32) :
    (((run_steps steps s).2.1.sum + (run_steps steps s).1.event_count) % U32
        = (s.event_count + (run_steps steps s).2.2) % U32)
    ∧ (s.event_count + (run_steps steps s).2.2 < U32 →
        (run_steps steps s).2.1.sum + (run_steps steps s).1.event_count
          = s.event_count + (run_steps steps s).2.2) := by
  refine ⟨run_steps_mod steps s hc, fun hlt => ?_⟩
  have hle := run_steps_le steps s hc
  have hmod := run_steps_mod steps s hc
  rw [Nat.mod_eq_of_lt hlt, Nat.mod_eq_of_lt (lt_of_le_of_lt hle hlt)] at hmod
  exact hmod

/-- Witness for C2 (amended) on a concrete interleaving: a notification
raising bits 0 and 1 (mask 15), then a drain — the reported sum plus the
residual counter equals the produced total exactly. -/
theorem c2_no_loss_amended_witness :
    (⟨0, 15, 0, true, true⟩ : MonitorState).event_count < U32
    ∧ (run_steps [Step.notify 3, Step.drain] ⟨0, 15, 0, true, true⟩).2.1.sum
        + (run_steps [Step.notify 3, Step.drain] ⟨0, 15, 0, true, true⟩).1.event_count
        = (⟨0, 15, 0, true, true⟩ : MonitorState).event_count
          + (run_steps [Step.notify 3, Step.drain] ⟨0, 15, 0, true, true⟩).2.2 :=
  ⟨by decide,
    (c2_no_loss_amended [Step.notify 3, Step.drain] ⟨0, 15, 0, true, true⟩
        (by decide)).2 (by decide)⟩

/-- A notification pattern that saturates the counter: each pair raises
all 32 monitored lines and then lowers them again. -/
def pair_steps : Nat → List Step
  | 0 => []
  | k + 1 => Step.notify (U32 - 1) :: Step.notify 0 :: pair_steps k

theorem popcount32_all : popcount32 (U32 - 1) = 32 := by decide

theorem rising_edges_all (c : Nat) (b1 b2 : Bool) :
    rising_edges ⟨c, U32 - 1, 0, b1, b2⟩ (U32 - 1) = U32 - 1 := by
  show (compl32 0 &&& (U32 - 1)) &&& (U32 - 1) = U32 - 1
  decide

theorem rising_edges_all_low (c : Nat) (b1 b2 : Bool) :
    rising_edges ⟨c, U32 - 1, U32 - 1, b1, b2⟩ 0 = 0 := by
  show (compl32 (U32 - 1) &&& 0) &&& (U32 - 1) = 0
  decide

/-- Raising all 32 lines from the all-low state adds 32 to the counter
(modulo `2 ^ 32`). -/
theorem cb_all_lines (c : Nat) (b1 b2 : Bool) (hc : c < U32) :
    gpio_change_callback (U32 - 1) ⟨c, U32 - 1, 0, b1, b2⟩
      = ⟨(c + 32) % U32, U32 - 1, U32 - 1, b1, b2⟩ := by
  unfold gpio_change_callback
  rw [rising_edges_all]
  have hg : ((U32 - 1 : Nat) != 0) = true := by decide
  simp only [hg, if_true]
  rw [count_rising_loop_eq _ _ hc, popcount32_all]

/-- Lowering all lines produces no event and restores the all-low
baseline. -/
theorem cb_all_low (c : Nat) (b1 b2 : Bool) :
    gpio_change_callback 0 ⟨c, U32 - 1, U32 - 1, b1, b2⟩
      = ⟨c, U32 - 1, 0, b1, b2⟩ := by
  unfold gpio_change_callback
  rw [rising_edges_all_low]
  simp

/-- Running `k` raise/lower pairs from an all-low state: no reports,
`32 * k` events produced, counter advanced by `32 * k` modulo `2 ^ 32`. -/
theorem run_pair_steps (k : Nat) : ∀ (c : Nat) (b1 b2 : Bool), c < U32 →
    run_steps (pair_steps k) ⟨c, U32 - 1, 0, b1, b2⟩
      = (⟨(c + 32 * k) % U32, U32 - 1, 0, b1, b2⟩, [], 32 * k) := by
  induction k with
  | zero =>
    intro c b1 b2 hc
    simp [pair_steps, run_steps, Nat.mod_eq_of_lt hc]
  | succ k ih =>
    intro c b1 b2 hc
    simp only [pair_steps, run_steps]
    rw [cb_all_lines c b1 b2 hc, cb_all_low,
      ih ((c + 32) % U32) b1 b2 (Nat.mod_lt _ U32_pos),
      rising_edges_all, popcount32_all, rising_edges_all_low, popcount32_zero]
    have h1 : ((c + 32) % U32 + 32 * k) % U32 = (c + 32 * (k + 1)) % U32 := by
      rw [Nat.mod_add_mod]
      congr 1
      ring
    simp [h1]
    omega

/-- Counterexample to C2 as stated: `2 ^ 27` raise-all/lower-all pairs
with all 32 lines monitored produce `2 ^ 32` events with no drain; the
`uint32_t` counter wraps to 0, so the sum of reported values (none) plus
the residual counter is 0, not `2 ^ 32`: increments ARE lost to
wraparound, and the unqualified no-loss equation fails. -/
theorem c2_no_loss_counterexample :
    ¬ ((run_steps (pair_steps 134217728) ⟨0, U32 - 1, 0, true, true⟩).2.1.sum
          + (run_steps (pair_steps 134217728) ⟨0, U32 - 1, 0, true, true⟩).1.event_count
        = (⟨0, U32 - 1, 0, true, true⟩ : MonitorState).event_count
          + (run_steps (pair_steps 134217728) ⟨0, U32 - 1, 0, true, true⟩).2.2) := by
  rw [run_pair_steps 134217728 0 true true (by decide)]
  decide
